import Mathlib

/-!
Verification of the dry-ice-blaster cost-benefit engine
(`src/dry_ice_blaster_Calc.py`, function `perform_cba`).

The engine is a pure arithmetic function from sixteen numeric inputs to a
comparison table plus five summary metrics.  We embed it shallowly over ℚ:
each Python local variable becomes a Lean definition with the same name,
translated line by line from the source; the string-typed payback sentinels
become the constructors of `PaybackReport` (the `years` constructor carries
the exact quotient that the Python code formats to two decimals for
display).
-/

/-- The sixteen scalar inputs of `perform_cba`, in source order
(source lines 6-23). -/
structure CBAInputs where
  daily_cleaning_frequency : ℚ
  manual_staff_count : ℚ
  manual_cleaning_hours_per_session : ℚ
  staff_hourly_cost : ℚ
  dry_ice_blaster_cost : ℚ
  liquid_co2_cost_per_litre : ℚ
  liquid_co2_consumption_litre_per_hour : ℚ
  blaster_maintenance_annual : ℚ
  manual_cleaning_chemicals_per_session : ℚ
  manual_cleaning_water_per_session : ℚ
  manual_cleaning_waste_disposal_per_session : ℚ
  dry_ice_cleaning_time_reduction_percent : ℚ
  revenue_per_hour_production : ℚ
  blaster_power_consumption_kw : ℚ
  electricity_cost_per_kwh : ℚ
  machine_lifespan_years : ℚ
  deriving DecidableEq, Repr

/-- The payback-period outcomes of `perform_cba` (source lines 92-104).
Each constructor corresponds to one of the string sentinels the Python
code returns; `years` carries the exact quotient that the code renders
with two decimals. -/
inductive PaybackReport where
  | na
  | paidBackYear1
  | years (y : ℚ)
  | never
  | naNoInitialCost
  deriving DecidableEq, Repr

/-- `annual_cleaning_sessions` (source line 30). -/
def annual_cleaning_sessions (p : CBAInputs) : ℚ :=
  p.daily_cleaning_frequency * 365

/-- `manual_man_hours_per_session` (source line 33). -/
def manual_man_hours_per_session (p : CBAInputs) : ℚ :=
  p.manual_staff_count * p.manual_cleaning_hours_per_session

/-- `manual_annual_labor_cost` (source line 34). -/
def manual_annual_labor_cost (p : CBAInputs) : ℚ :=
  manual_man_hours_per_session p * p.staff_hourly_cost * annual_cleaning_sessions p

/-- `manual_annual_chemical_cost` (source line 35). -/
def manual_annual_chemical_cost (p : CBAInputs) : ℚ :=
  p.manual_cleaning_chemicals_per_session * annual_cleaning_sessions p

/-- `manual_annual_water_cost` (source line 36). -/
def manual_annual_water_cost (p : CBAInputs) : ℚ :=
  p.manual_cleaning_water_per_session * annual_cleaning_sessions p

/-- `manual_annual_waste_disposal_cost` (source line 37). -/
def manual_annual_waste_disposal_cost (p : CBAInputs) : ℚ :=
  p.manual_cleaning_waste_disposal_per_session * annual_cleaning_sessions p

/-- `total_manual_annual_operational_cost` (source lines 38-43). -/
def total_manual_annual_operational_cost (p : CBAInputs) : ℚ :=
  manual_annual_labor_cost p +
  manual_annual_chemical_cost p +
  manual_annual_water_cost p +
  manual_annual_waste_disposal_cost p

/-- `dry_ice_cleaning_hours_per_session` (source line 46). -/
def dry_ice_cleaning_hours_per_session (p : CBAInputs) : ℚ :=
  p.manual_cleaning_hours_per_session * (1 - p.dry_ice_cleaning_time_reduction_percent / 100)

/-- `dry_ice_man_hours_per_session` (source line 47): one operator. -/
def dry_ice_man_hours_per_session (p : CBAInputs) : ℚ :=
  1 * dry_ice_cleaning_hours_per_session p

/-- `dry_ice_annual_labor_cost` (source line 48). -/
def dry_ice_annual_labor_cost (p : CBAInputs) : ℚ :=
  dry_ice_man_hours_per_session p * p.staff_hourly_cost * annual_cleaning_sessions p

/-- `liquid_co2_annual_cost` (source lines 50-55). -/
def liquid_co2_annual_cost (p : CBAInputs) : ℚ :=
  p.liquid_co2_consumption_litre_per_hour *
  dry_ice_cleaning_hours_per_session p *
  p.liquid_co2_cost_per_litre *
  annual_cleaning_sessions p

/-- `blaster_annual_power_cost` (source lines 57-62). -/
def blaster_annual_power_cost (p : CBAInputs) : ℚ :=
  p.blaster_power_consumption_kw *
  dry_ice_cleaning_hours_per_session p *
  p.electricity_cost_per_kwh *
  annual_cleaning_sessions p

/-- `total_dry_ice_annual_operational_cost` (source lines 64-69). -/
def total_dry_ice_annual_operational_cost (p : CBAInputs) : ℚ :=
  dry_ice_annual_labor_cost p +
  liquid_co2_annual_cost p +
  p.blaster_maintenance_annual +
  blaster_annual_power_cost p

/-- `downtime_saved_per_session_hours` (source line 72). -/
def downtime_saved_per_session_hours (p : CBAInputs) : ℚ :=
  p.manual_cleaning_hours_per_session - dry_ice_cleaning_hours_per_session p

/-- `annual_downtime_saved_hours` (source line 73). -/
def annual_downtime_saved_hours (p : CBAInputs) : ℚ :=
  downtime_saved_per_session_hours p * annual_cleaning_sessions p

/-- `annual_revenue_gain_from_uptime` (source line 74). -/
def annual_revenue_gain_from_uptime (p : CBAInputs) : ℚ :=
  annual_downtime_saved_hours p * p.revenue_per_hour_production

/-- `annual_operational_cost_savings` (source line 77). -/
def annual_operational_cost_savings (p : CBAInputs) : ℚ :=
  total_manual_annual_operational_cost p - total_dry_ice_annual_operational_cost p

/-- `net_financial_benefit_year_1` (source line 79). -/
def net_financial_benefit_year_1 (p : CBAInputs) : ℚ :=
  annual_operational_cost_savings p + annual_revenue_gain_from_uptime p - p.dry_ice_blaster_cost

/-- `net_financial_benefit_subsequent_years` (source line 81). -/
def net_financial_benefit_subsequent_years (p : CBAInputs) : ℚ :=
  annual_operational_cost_savings p + annual_revenue_gain_from_uptime p

/-- `total_benefit_over_lifespan` (source lines 84-87), including the
reassignment to 0 when `machine_lifespan_years <= 0`. -/
def total_benefit_over_lifespan (p : CBAInputs) : ℚ :=
  if p.machine_lifespan_years ≤ 0 then 0
  else net_financial_benefit_year_1 p +
    net_financial_benefit_subsequent_years p * (p.machine_lifespan_years - 1)

/-- `roi_over_lifespan` (source line 89). -/
def roi_over_lifespan (p : CBAInputs) : ℚ :=
  if p.dry_ice_blaster_cost > 0 then
    total_benefit_over_lifespan p / p.dry_ice_blaster_cost * 100
  else 0

/-- `initial_investment_to_recover` (source line 94). -/
def initial_investment_to_recover (p : CBAInputs) : ℚ :=
  p.dry_ice_blaster_cost - (annual_operational_cost_savings p + annual_revenue_gain_from_uptime p)

/-- `payback_period_years` (source lines 92-104): the if/elif chain, with the
string sentinels replaced by the constructors of `PaybackReport`. -/
def payback_period_years (p : CBAInputs) : PaybackReport :=
  if net_financial_benefit_subsequent_years p > 0 then
    if initial_investment_to_recover p ≤ 0 then PaybackReport.paidBackYear1
    else PaybackReport.years
      (initial_investment_to_recover p / net_financial_benefit_subsequent_years p)
  else if net_financial_benefit_subsequent_years p ≤ 0 ∧ p.dry_ice_blaster_cost > 0 then
    PaybackReport.never
  else if p.dry_ice_blaster_cost = 0 then PaybackReport.naNoInitialCost
  else PaybackReport.na

/-- The record returned by `perform_cba` (source line 143): the comparison
table (category name, manual-column value, blaster-column value) and the
five summary metrics. -/
structure CBAResult where
  table : List (String × ℚ × ℚ)
  annual_operational_cost_savings : ℚ
  net_financial_benefit_year_1 : ℚ
  net_financial_benefit_subsequent_years : ℚ
  roi_over_lifespan : ℚ
  payback_period_years : PaybackReport
  deriving DecidableEq, Repr

/-- `perform_cba` (source lines 6-143): assembles the table of
lines 108-139 and returns it with the summary metrics. -/
def perform_cba (p : CBAInputs) : CBAResult :=
  { table := [
      ("Initial Capital Expenditure", 0, p.dry_ice_blaster_cost),
      ("Annual Labor Costs", manual_annual_labor_cost p, dry_ice_annual_labor_cost p),
      ("Annual Consumable Costs (Chemicals/Liquid CO2)",
        manual_annual_chemical_cost p, liquid_co2_annual_cost p),
      ("Annual Water Usage Costs", manual_annual_water_cost p, 0),
      ("Annual Waste Disposal Costs", manual_annual_waste_disposal_cost p, 0),
      ("Annual Maintenance & Utilities (Blaster)", 0, p.blaster_maintenance_annual),
      ("Annual Blaster Power Costs", 0, blaster_annual_power_cost p),
      ("Annual Revenue Gain from Reduced Downtime", 0, annual_revenue_gain_from_uptime p)],
    annual_operational_cost_savings := annual_operational_cost_savings p,
    net_financial_benefit_year_1 := net_financial_benefit_year_1 p,
    net_financial_benefit_subsequent_years := net_financial_benefit_subsequent_years p,
    roi_over_lifespan := roi_over_lifespan p,
    payback_period_years := payback_period_years p }

/-- The reference scenario of the spec (§8): sessions/day 1, staff 3,
manual hours 3, hourly cost 6, capital cost 15000, CO2 cost 2.50/unit,
consumption 20/hr, maintenance 500, chemicals 10, water 5, waste 5,
reduction 60 %, revenue 500/hr, power 3 kW, electricity 0.35/kWh,
lifespan 5 years. -/
def refInputs : CBAInputs :=
  { daily_cleaning_frequency := 1
    manual_staff_count := 3
    manual_cleaning_hours_per_session := 3
    staff_hourly_cost := 6
    dry_ice_blaster_cost := 15000
    liquid_co2_cost_per_litre := 5/2
    liquid_co2_consumption_litre_per_hour := 20
    blaster_maintenance_annual := 500
    manual_cleaning_chemicals_per_session := 10
    manual_cleaning_water_per_session := 5
    manual_cleaning_waste_disposal_per_session := 5
    dry_ice_cleaning_time_reduction_percent := 60
    revenue_per_hour_production := 500
    blaster_power_consumption_kw := 3
    electricity_cost_per_kwh := 35/100
    machine_lifespan_years := 5 }

/-- Reference scenario with the time-reduction slider pushed to 150 %:
outside the documented domain, used to probe the absence of validation. -/
def badC4 : CBAInputs :=
  { refInputs with dry_ice_cleaning_time_reduction_percent := 150 }

/-- Reference scenario with the time-reduction percentage at 200. -/
def badC10 : CBAInputs :=
  { refInputs with dry_ice_cleaning_time_reduction_percent := 200 }

/-- Reference scenario with zero time reduction (blasting as slow as manual). -/
def red0a : CBAInputs :=
  { refInputs with dry_ice_cleaning_time_reduction_percent := 0 }

/-- Same as `red0a` but with a strictly larger revenue per production hour. -/
def red0b : CBAInputs :=
  { red0a with revenue_per_hour_production := 600 }

/-- Reference scenario with a zero blaster purchase cost. -/
def zeroCapInputs : CBAInputs :=
  { refInputs with dry_ice_blaster_cost := 0 }

/-- A degenerate but in-domain scenario: one staff member, one cleaning hour,
one session per day, every cost and rate zero, zero capital cost, zero
revenue, zero reduction, lifespan one year.  Here the subsequent-year net
benefit and the amount to recover are both exactly 0. -/
def degenInputs : CBAInputs :=
  { daily_cleaning_frequency := 1
    manual_staff_count := 1
    manual_cleaning_hours_per_session := 1
    staff_hourly_cost := 0
    dry_ice_blaster_cost := 0
    liquid_co2_cost_per_litre := 0
    liquid_co2_consumption_litre_per_hour := 0
    blaster_maintenance_annual := 0
    manual_cleaning_chemicals_per_session := 0
    manual_cleaning_water_per_session := 0
    manual_cleaning_waste_disposal_per_session := 0
    dry_ice_cleaning_time_reduction_percent := 0
    revenue_per_hour_production := 0
    blaster_power_consumption_kw := 0
    electricity_cost_per_kwh := 0
    machine_lifespan_years := 1 }

/-- C1: on the reference input set, `perform_cba` produces exactly
365 annual sessions, 1.2 blasting hours per session, 1.8 downtime hours
saved per session, 328 500.00 annual revenue gain, 27 010.00 manual annual
operational cost, 25 487.90 blaster annual operational cost, 1 522.10
operational savings, 315 022.10 net benefit in year 1 and 330 022.10 net
benefit in subsequent years. -/
theorem refScenario_values :
    annual_cleaning_sessions refInputs = 365 ∧
    dry_ice_cleaning_hours_per_session refInputs = 6/5 ∧
    downtime_saved_per_session_hours refInputs = 9/5 ∧
    annual_revenue_gain_from_uptime refInputs = 328500 ∧
    total_manual_annual_operational_cost refInputs = 27010 ∧
    total_dry_ice_annual_operational_cost refInputs = 254879/10 ∧
    (perform_cba refInputs).annual_operational_cost_savings = 15221/10 ∧
    (perform_cba refInputs).net_financial_benefit_year_1 = 3150221/10 ∧
    (perform_cba refInputs).net_financial_benefit_subsequent_years = 3300221/10 := by
  norm_num [perform_cba, refInputs, annual_cleaning_sessions, manual_man_hours_per_session,
    manual_annual_labor_cost, manual_annual_chemical_cost, manual_annual_water_cost,
    manual_annual_waste_disposal_cost, total_manual_annual_operational_cost,
    dry_ice_cleaning_hours_per_session, dry_ice_man_hours_per_session,
    dry_ice_annual_labor_cost, liquid_co2_annual_cost, blaster_annual_power_cost,
    total_dry_ice_annual_operational_cost, downtime_saved_per_session_hours,
    annual_downtime_saved_hours, annual_revenue_gain_from_uptime,
    annual_operational_cost_savings, net_financial_benefit_year_1,
    net_financial_benefit_subsequent_years]

/-- C9: in the table returned by `perform_cba`, the capital-expenditure row
(the first row) carries 0 in the manual column and the full purchase cost
in the blaster column, for every input. -/
theorem capital_row_blaster_only (p : CBAInputs) :
    (perform_cba p).table.head? =
      some ("Initial Capital Expenditure", 0, p.dry_ice_blaster_cost) := rfl

/-- C4: `perform_cba` performs no validation.  At the reference scenario
with a 150 % time reduction — inside the range the spec requires the engine
to reject — it computes straight through: blasting hours per session comes
out −1.5 (negative), and a full result record is still returned, with the
operational savings inflated by the negative blaster cost terms. -/
theorem reduction150_not_rejected :
    (100 : ℚ) ≤ badC4.dry_ice_cleaning_time_reduction_percent ∧
    dry_ice_cleaning_hours_per_session badC4 = -(3/2) ∧
    dry_ice_cleaning_hours_per_session badC4 < 0 ∧
    (perform_cba badC4).annual_operational_cost_savings = 461959/8 ∧
    (perform_cba badC4).table.length = 8 := by
  refine ⟨by norm_num [badC4, refInputs], ?_, ?_, ?_, rfl⟩ <;>
    norm_num [perform_cba, badC4, refInputs, annual_cleaning_sessions,
      manual_man_hours_per_session, manual_annual_labor_cost, manual_annual_chemical_cost,
      manual_annual_water_cost, manual_annual_waste_disposal_cost,
      total_manual_annual_operational_cost, dry_ice_cleaning_hours_per_session,
      dry_ice_man_hours_per_session, dry_ice_annual_labor_cost, liquid_co2_annual_cost,
      blaster_annual_power_cost, total_dry_ice_annual_operational_cost,
      annual_operational_cost_savings]

/-- C10: `perform_cba` is total and validates nothing: at the reference
scenario with a 200 % time reduction it returns a complete result whose
blasting hours, blaster labor cost, consumable cost and power cost are all
negative. -/
theorem no_validation_negative_terms :
    (100 : ℚ) < badC10.dry_ice_cleaning_time_reduction_percent ∧
    dry_ice_cleaning_hours_per_session badC10 = -3 ∧
    dry_ice_annual_labor_cost badC10 = -6570 ∧
    liquid_co2_annual_cost badC10 = -54750 ∧
    blaster_annual_power_cost badC10 = -(4599/4) ∧
    (perform_cba badC10).table.length = 8 := by
  refine ⟨by norm_num [badC10, refInputs], ?_, ?_, ?_, ?_, rfl⟩ <;>
    norm_num [badC10, refInputs, annual_cleaning_sessions,
      dry_ice_cleaning_hours_per_session, dry_ice_man_hours_per_session,
      dry_ice_annual_labor_cost, liquid_co2_annual_cost, blaster_annual_power_cost]

/-- C5 counterexample: with a zero capital cost on the otherwise-profitable
reference scenario, the code reports the payback as "< 1 year (Paid back in
Year 1)", not as a not-applicable sentinel — the claim that capital = 0
always yields "not applicable" is false (ROI is indeed reported as 0). -/
theorem zeroCap_payback_not_na :
    zeroCapInputs.dry_ice_blaster_cost = 0 ∧
    (perform_cba zeroCapInputs).roi_over_lifespan = 0 ∧
    (perform_cba zeroCapInputs).payback_period_years = PaybackReport.paidBackYear1 ∧
    PaybackReport.paidBackYear1 ≠ PaybackReport.naNoInitialCost ∧
    PaybackReport.paidBackYear1 ≠ PaybackReport.na := by
  refine ⟨rfl, rfl, ?_, by simp, by simp⟩
  show payback_period_years zeroCapInputs = PaybackReport.paidBackYear1
  norm_num [payback_period_years, initial_investment_to_recover, zeroCapInputs, refInputs,
    annual_cleaning_sessions, manual_man_hours_per_session, manual_annual_labor_cost,
    manual_annual_chemical_cost, manual_annual_water_cost, manual_annual_waste_disposal_cost,
    total_manual_annual_operational_cost, dry_ice_cleaning_hours_per_session,
    dry_ice_man_hours_per_session, dry_ice_annual_labor_cost, liquid_co2_annual_cost,
    blaster_annual_power_cost, total_dry_ice_annual_operational_cost,
    downtime_saved_per_session_hours, annual_downtime_saved_hours,
    annual_revenue_gain_from_uptime, annual_operational_cost_savings,
    net_financial_benefit_subsequent_years]


/-- C5 (amended): for every input with a zero capital cost, `perform_cba`
reports ROI as 0 and never divides by the capital cost; the payback is the
"not applicable" sentinel exactly when the subsequent-year net benefit is
not positive, and the "paid back within year 1" sentinel when it is
positive. -/
theorem capzero_roi_payback (p : CBAInputs) (h : p.dry_ice_blaster_cost = 0) :
    (perform_cba p).roi_over_lifespan = 0 ∧
    (perform_cba p).payback_period_years =
      (if 0 < net_financial_benefit_subsequent_years p then PaybackReport.paidBackYear1
       else PaybackReport.naNoInitialCost) := by
  constructor
  · show roi_over_lifespan p = 0
    simp [roi_over_lifespan, h]
  · show payback_period_years p = _
    unfold payback_period_years initial_investment_to_recover
    rw [h]
    split_ifs with h1 h2 h3 h4 <;>
      first
        | rfl
        | (exact h4 rfl)
        | (exact absurd h3.2 (by norm_num))
        | (exfalso;
           simp only [net_financial_benefit_subsequent_years, gt_iff_lt, not_le] at *;
           linarith)

/-- Witness for the C5 theorem at the zero-capital reference scenario. -/
theorem capzero_roi_payback_witness :
    (perform_cba zeroCapInputs).roi_over_lifespan = 0 ∧
    (perform_cba zeroCapInputs).payback_period_years =
      (if 0 < net_financial_benefit_subsequent_years zeroCapInputs then PaybackReport.paidBackYear1
       else PaybackReport.naNoInitialCost) :=
  capzero_roi_payback zeroCapInputs rfl

/-- C2 counterexample: at the in-domain degenerate scenario where both the
capital cost and the subsequent-year net benefit are exactly 0, the amount
to recover is 0 (≤ 0), yet the code reports the "N/A (No initial cost)"
sentinel, not the within-year-1 report the claim requires for
amount-to-recover ≤ 0. -/
theorem degen_payback_not_year1 :
    (0:ℚ) ≤ degenInputs.dry_ice_blaster_cost ∧
    1 ≤ degenInputs.manual_staff_count ∧
    0 < degenInputs.manual_cleaning_hours_per_session ∧
    degenInputs.dry_ice_cleaning_time_reduction_percent < 100 ∧
    initial_investment_to_recover degenInputs ≤ 0 ∧
    (perform_cba degenInputs).payback_period_years = PaybackReport.naNoInitialCost ∧
    PaybackReport.naNoInitialCost ≠ PaybackReport.paidBackYear1 := by
  refine ⟨by norm_num [degenInputs], by norm_num [degenInputs], by norm_num [degenInputs],
    by norm_num [degenInputs], ?_, ?_, by simp⟩
  · norm_num [initial_investment_to_recover, degenInputs, annual_cleaning_sessions,
      manual_man_hours_per_session, manual_annual_labor_cost, manual_annual_chemical_cost,
      manual_annual_water_cost, manual_annual_waste_disposal_cost,
      total_manual_annual_operational_cost, dry_ice_cleaning_hours_per_session,
      dry_ice_man_hours_per_session, dry_ice_annual_labor_cost, liquid_co2_annual_cost,
      blaster_annual_power_cost, total_dry_ice_annual_operational_cost,
      downtime_saved_per_session_hours, annual_downtime_saved_hours,
      annual_revenue_gain_from_uptime, annual_operational_cost_savings]
  · show payback_period_years degenInputs = PaybackReport.naNoInitialCost
    norm_num [payback_period_years, initial_investment_to_recover, degenInputs,
      annual_cleaning_sessions, manual_man_hours_per_session, manual_annual_labor_cost,
      manual_annual_chemical_cost, manual_annual_water_cost, manual_annual_waste_disposal_cost,
      total_manual_annual_operational_cost, dry_ice_cleaning_hours_per_session,
      dry_ice_man_hours_per_session, dry_ice_annual_labor_cost, liquid_co2_annual_cost,
      blaster_annual_power_cost, total_dry_ice_annual_operational_cost,
      downtime_saved_per_session_hours, annual_downtime_saved_hours,
      annual_revenue_gain_from_uptime, annual_operational_cost_savings,
      net_financial_benefit_subsequent_years]

/-- C2 (amended): for every input with a non-negative capital cost, the
payback follows the code's case order — when the subsequent-year net
benefit is positive, an amount to recover ≤ 0 gives the within-year-1
report and otherwise the exact fractional quotient; when it is not
positive, a positive capital cost gives the "never" sentinel and a zero
capital cost the "not applicable" sentinel.  A fractional payback, when
reported, is always strictly positive (never negative). -/
theorem payback_case_split (p : CBAInputs) (hcap : 0 ≤ p.dry_ice_blaster_cost) :
    ((perform_cba p).payback_period_years =
      if net_financial_benefit_subsequent_years p > 0 then
        (if initial_investment_to_recover p ≤ 0 then PaybackReport.paidBackYear1
         else PaybackReport.years
           (initial_investment_to_recover p / net_financial_benefit_subsequent_years p))
      else if p.dry_ice_blaster_cost > 0 then PaybackReport.never
      else PaybackReport.naNoInitialCost) ∧
    (∀ y : ℚ, (perform_cba p).payback_period_years = PaybackReport.years y → 0 < y) := by
  constructor
  · show payback_period_years p = _
    unfold payback_period_years
    split_ifs with h1 h2 h3 h4 h5 h6 h7
    · rfl
    · rfl
    · rfl
    · exact absurd h3.2 h4
    · exact absurd ((h5 ▸ h6 : (0:ℚ) > 0)) (lt_irrefl 0)
    · rfl
    · exact absurd ⟨le_of_not_lt h1, h7⟩ h3
    · exact absurd (le_antisymm (le_of_not_lt h7) hcap) h5
  · intro y hy
    have hy' : payback_period_years p = PaybackReport.years y := hy
    unfold payback_period_years at hy'
    split_ifs at hy' with h1 h2
    injection hy' with hxy
    subst hxy
    exact div_pos (not_le.mp h2) h1

/-- Witness for the C2 theorem at the reference scenario. -/
theorem payback_case_split_witness :
    (0:ℚ) ≤ refInputs.dry_ice_blaster_cost ∧
    (perform_cba refInputs).payback_period_years =
      (if net_financial_benefit_subsequent_years refInputs > 0 then
        (if initial_investment_to_recover refInputs ≤ 0 then PaybackReport.paidBackYear1
         else PaybackReport.years
           (initial_investment_to_recover refInputs /
             net_financial_benefit_subsequent_years refInputs))
      else if refInputs.dry_ice_blaster_cost > 0 then PaybackReport.never
      else PaybackReport.naNoInitialCost) :=
  ⟨by norm_num [refInputs], (payback_case_split refInputs (by norm_num [refInputs])).1⟩

/-- `net_financial_benefit_year_1` is the subsequent-year net benefit minus
the capital cost (source lines 79-81). -/
theorem net_y1_eq (p : CBAInputs) :
    net_financial_benefit_year_1 p =
      net_financial_benefit_subsequent_years p - p.dry_ice_blaster_cost := rfl

/-- The subsequent-year net benefit does not read the capital cost. -/
theorem net_sub_cost_update (p : CBAInputs) (c : ℚ) :
    net_financial_benefit_subsequent_years { p with dry_ice_blaster_cost := c } =
      net_financial_benefit_subsequent_years p := rfl

/-- The subsequent-year net benefit is affine in the revenue rate: operating
savings plus annual downtime hours times the revenue rate. -/
theorem net_sub_revenue_update (p : CBAInputs) (r : ℚ) :
    net_financial_benefit_subsequent_years { p with revenue_per_hour_production := r } =
      annual_operational_cost_savings p + annual_downtime_saved_hours p * r := rfl

/-- C3: for every input with a positive capital cost and a lifespan of at
least one year, the ROI returned by `perform_cba` is the
lifespan-amortized policy: (net benefit year 1 + subsequent-year net
benefit × (lifespan − 1)) / capital cost × 100. -/
theorem roi_lifespan_amortized (p : CBAInputs) (hcap : 0 < p.dry_ice_blaster_cost)
    (hlife : 1 ≤ p.machine_lifespan_years) :
    (perform_cba p).roi_over_lifespan =
      (net_financial_benefit_year_1 p +
        net_financial_benefit_subsequent_years p * (p.machine_lifespan_years - 1)) /
        p.dry_ice_blaster_cost * 100 := by
  have h0 : ¬ p.machine_lifespan_years ≤ 0 := by linarith
  show roi_over_lifespan p = _
  rw [roi_over_lifespan, total_benefit_over_lifespan, if_neg h0, if_pos hcap]

/-- Witness for the C3 theorem at the reference scenario. -/
theorem roi_lifespan_amortized_witness :
    (0:ℚ) < refInputs.dry_ice_blaster_cost ∧
    (1:ℚ) ≤ refInputs.machine_lifespan_years ∧
    (perform_cba refInputs).roi_over_lifespan =
      (net_financial_benefit_year_1 refInputs +
        net_financial_benefit_subsequent_years refInputs *
          (refInputs.machine_lifespan_years - 1)) /
        refInputs.dry_ice_blaster_cost * 100 :=
  ⟨by norm_num [refInputs], by norm_num [refInputs],
    roi_lifespan_amortized refInputs (by norm_num [refInputs]) (by norm_num [refInputs])⟩

/-- C7: raising only the capital cost strictly lowers the year-1 net
benefit returned by `perform_cba` and leaves the subsequent-year net
benefit exactly unchanged. -/
theorem capital_monotone (p : CBAInputs) (c1 c2 : ℚ) (hc : c1 < c2) :
    (perform_cba { p with dry_ice_blaster_cost := c2 }).net_financial_benefit_year_1 <
      (perform_cba { p with dry_ice_blaster_cost := c1 }).net_financial_benefit_year_1 ∧
    (perform_cba { p with dry_ice_blaster_cost := c2 }).net_financial_benefit_subsequent_years =
      (perform_cba { p with dry_ice_blaster_cost := c1 }).net_financial_benefit_subsequent_years := by
  constructor
  · show net_financial_benefit_year_1 _ < net_financial_benefit_year_1 _
    simp only [net_y1_eq, net_sub_cost_update]
    linarith
  · exact (net_sub_cost_update p c2).trans (net_sub_cost_update p c1).symm

/-- Witness for the C7 theorem: capital cost 20000 versus 15000 on the
reference scenario. -/
theorem capital_monotone_witness :
    (15000:ℚ) < 20000 ∧
    ((perform_cba { refInputs with dry_ice_blaster_cost := 20000 }).net_financial_benefit_year_1 <
      (perform_cba { refInputs with dry_ice_blaster_cost := 15000 }).net_financial_benefit_year_1 ∧
    (perform_cba { refInputs with
        dry_ice_blaster_cost := 20000 }).net_financial_benefit_subsequent_years =
      (perform_cba { refInputs with
        dry_ice_blaster_cost := 15000 }).net_financial_benefit_subsequent_years) :=
  ⟨by norm_num, capital_monotone refInputs 15000 20000 (by norm_num)⟩

/-- C6 counterexample: with a zero time-reduction percentage (inside the
documented domain [0,100)) the downtime saved is zero, so raising the
revenue per production hour from 500 to 600 leaves both net benefits
exactly unchanged — the claimed strict increase fails. -/
theorem revenue_flat_at_zero_reduction :
    red0a.revenue_per_hour_production < red0b.revenue_per_hour_production ∧
    red0a.dry_ice_cleaning_time_reduction_percent = 0 ∧
    (perform_cba red0a).net_financial_benefit_year_1 =
      (perform_cba red0b).net_financial_benefit_year_1 ∧
    (perform_cba red0a).net_financial_benefit_subsequent_years =
      (perform_cba red0b).net_financial_benefit_subsequent_years := by
  refine ⟨by norm_num [red0a, red0b, refInputs], rfl, ?_, ?_⟩ <;>
    norm_num [perform_cba, red0a, red0b, refInputs, annual_cleaning_sessions,
      manual_man_hours_per_session, manual_annual_labor_cost, manual_annual_chemical_cost,
      manual_annual_water_cost, manual_annual_waste_disposal_cost,
      total_manual_annual_operational_cost, dry_ice_cleaning_hours_per_session,
      dry_ice_man_hours_per_session, dry_ice_annual_labor_cost, liquid_co2_annual_cost,
      blaster_annual_power_cost, total_dry_ice_annual_operational_cost,
      downtime_saved_per_session_hours, annual_downtime_saved_hours,
      annual_revenue_gain_from_uptime, annual_operational_cost_savings,
      net_financial_benefit_year_1, net_financial_benefit_subsequent_years]

/-- C6 (amended): when the time-reduction percentage is strictly positive
(and the cleaning hours and session frequency are in the documented
domain), raising only the revenue per production hour strictly raises
both the year-1 and the subsequent-year net benefits returned by
`perform_cba`. -/
theorem revenue_strict_monotone (p : CBAInputs) (r1 r2 : ℚ) (hr : r1 < r2)
    (hhours : 0 < p.manual_cleaning_hours_per_session)
    (hred0 : 0 < p.dry_ice_cleaning_time_reduction_percent)
    (hred1 : p.dry_ice_cleaning_time_reduction_percent < 100)
    (hfreq : 1 ≤ p.daily_cleaning_frequency) :
    (perform_cba { p with revenue_per_hour_production := r1 }).net_financial_benefit_year_1 <
      (perform_cba { p with revenue_per_hour_production := r2 }).net_financial_benefit_year_1 ∧
    (perform_cba { p with
        revenue_per_hour_production := r1 }).net_financial_benefit_subsequent_years <
      (perform_cba { p with
        revenue_per_hour_production := r2 }).net_financial_benefit_subsequent_years := by
  have hd : 0 < annual_downtime_saved_hours p := by
    unfold annual_downtime_saved_hours downtime_saved_per_session_hours
      dry_ice_cleaning_hours_per_session annual_cleaning_sessions
    have e : (p.manual_cleaning_hours_per_session -
        p.manual_cleaning_hours_per_session *
          (1 - p.dry_ice_cleaning_time_reduction_percent / 100)) *
        (p.daily_cleaning_frequency * 365) =
        p.manual_cleaning_hours_per_session *
          (p.dry_ice_cleaning_time_reduction_percent / 100) *
          (p.daily_cleaning_frequency * 365) := by ring
    rw [e]
    have h1 : 0 < p.dry_ice_cleaning_time_reduction_percent / 100 := by linarith
    have h2 : 0 < p.daily_cleaning_frequency * 365 := by linarith
    exact mul_pos (mul_pos hhours h1) h2
  have hlt : annual_operational_cost_savings p + annual_downtime_saved_hours p * r1 <
      annual_operational_cost_savings p + annual_downtime_saved_hours p * r2 := by
    have := mul_lt_mul_of_pos_left hr hd
    linarith
  constructor
  · show net_financial_benefit_year_1 _ < net_financial_benefit_year_1 _
    simp only [net_y1_eq, net_sub_revenue_update]
    have hc : ({ p with revenue_per_hour_production := r1 }).dry_ice_blaster_cost =
        ({ p with revenue_per_hour_production := r2 }).dry_ice_blaster_cost := rfl
    rw [hc]
    exact sub_lt_sub_right hlt _
  · show net_financial_benefit_subsequent_years _ < net_financial_benefit_subsequent_years _
    simp only [net_sub_revenue_update]
    exact hlt

/-- Witness for the C6 theorem: revenue 500 versus 600 on the reference
scenario. -/
theorem revenue_strict_monotone_witness :
    (500:ℚ) < 600 ∧
    (0:ℚ) < refInputs.manual_cleaning_hours_per_session ∧
    (0:ℚ) < refInputs.dry_ice_cleaning_time_reduction_percent ∧
    refInputs.dry_ice_cleaning_time_reduction_percent < 100 ∧
    (1:ℚ) ≤ refInputs.daily_cleaning_frequency ∧
    ((perform_cba { refInputs with
        revenue_per_hour_production := 500 }).net_financial_benefit_year_1 <
      (perform_cba { refInputs with
        revenue_per_hour_production := 600 }).net_financial_benefit_year_1 ∧
    (perform_cba { refInputs with
        revenue_per_hour_production := 500 }).net_financial_benefit_subsequent_years <
      (perform_cba { refInputs with
        revenue_per_hour_production := 600 }).net_financial_benefit_subsequent_years) :=
  ⟨by norm_num, by norm_num [refInputs], by norm_num [refInputs], by norm_num [refInputs],
    by norm_num [refInputs],
    revenue_strict_monotone refInputs 500 600 (by norm_num) (by norm_num [refInputs])
      (by norm_num [refInputs]) (by norm_num [refInputs]) (by norm_num [refInputs])⟩

/-- C8: under the documented invariants (non-negative costs and rates,
staff ≥ 1, positive cleaning hours, reduction percentage in [0,100),
at least one session per day) both the manual and the blaster total
annual operational costs computed by `perform_cba` are non-negative. -/
theorem annual_costs_nonneg (p : CBAInputs)
    (hwage : 0 ≤ p.staff_hourly_cost)
    (hchem : 0 ≤ p.manual_cleaning_chemicals_per_session)
    (hwater : 0 ≤ p.manual_cleaning_water_per_session)
    (hwaste : 0 ≤ p.manual_cleaning_waste_disposal_per_session)
    (hco2c : 0 ≤ p.liquid_co2_cost_per_litre)
    (hco2r : 0 ≤ p.liquid_co2_consumption_litre_per_hour)
    (hmaint : 0 ≤ p.blaster_maintenance_annual)
    (hpow : 0 ≤ p.blaster_power_consumption_kw)
    (helec : 0 ≤ p.electricity_cost_per_kwh)
    (hstaff : 1 ≤ p.manual_staff_count)
    (hhours : 0 < p.manual_cleaning_hours_per_session)
    (hred0 : 0 ≤ p.dry_ice_cleaning_time_reduction_percent)
    (hred1 : p.dry_ice_cleaning_time_reduction_percent < 100)
    (hfreq : 1 ≤ p.daily_cleaning_frequency) :
    0 ≤ total_manual_annual_operational_cost p ∧
    0 ≤ total_dry_ice_annual_operational_cost p := by
  have hsess : 0 ≤ annual_cleaning_sessions p := by
    unfold annual_cleaning_sessions
    nlinarith
  have hblast : 0 ≤ dry_ice_cleaning_hours_per_session p := by
    unfold dry_ice_cleaning_hours_per_session
    have h1 : 0 ≤ 1 - p.dry_ice_cleaning_time_reduction_percent / 100 := by linarith
    exact mul_nonneg hhours.le h1
  have hstaff0 : 0 ≤ p.manual_staff_count := by linarith
  constructor
  · unfold total_manual_annual_operational_cost manual_annual_labor_cost
      manual_annual_chemical_cost manual_annual_water_cost
      manual_annual_waste_disposal_cost manual_man_hours_per_session
    exact add_nonneg (add_nonneg (add_nonneg
      (mul_nonneg (mul_nonneg (mul_nonneg hstaff0 hhours.le) hwage) hsess)
      (mul_nonneg hchem hsess)) (mul_nonneg hwater hsess)) (mul_nonneg hwaste hsess)
  · unfold total_dry_ice_annual_operational_cost dry_ice_annual_labor_cost
      dry_ice_man_hours_per_session liquid_co2_annual_cost blaster_annual_power_cost
    exact add_nonneg (add_nonneg (add_nonneg
      (mul_nonneg (mul_nonneg (mul_nonneg zero_le_one hblast) hwage) hsess)
      (mul_nonneg (mul_nonneg (mul_nonneg hco2r hblast) hco2c) hsess)) hmaint)
      (mul_nonneg (mul_nonneg (mul_nonneg hpow hblast) helec) hsess)

/-- Witness for the C8 theorem at the reference scenario. -/
theorem annual_costs_nonneg_witness :
    (0:ℚ) ≤ refInputs.staff_hourly_cost ∧
    (1:ℚ) ≤ refInputs.manual_staff_count ∧
    (0:ℚ) < refInputs.manual_cleaning_hours_per_session ∧
    refInputs.dry_ice_cleaning_time_reduction_percent < 100 ∧
    (0 ≤ total_manual_annual_operational_cost refInputs ∧
      0 ≤ total_dry_ice_annual_operational_cost refInputs) :=
  ⟨by norm_num [refInputs], by norm_num [refInputs], by norm_num [refInputs],
    by norm_num [refInputs],
    annual_costs_nonneg refInputs (by norm_num [refInputs]) (by norm_num [refInputs])
      (by norm_num [refInputs]) (by norm_num [refInputs]) (by norm_num [refInputs])
      (by norm_num [refInputs]) (by norm_num [refInputs]) (by norm_num [refInputs])
      (by norm_num [refInputs]) (by norm_num [refInputs]) (by norm_num [refInputs])
      (by norm_num [refInputs]) (by norm_num [refInputs]) (by norm_num [refInputs])⟩
